import Mathlib

/-!
Verification of the `llm-provider` core: retry engine (`src/utils/retry.ts`),
OpenAI provider adapter (`src/providers/openai.ts`) and proxy relay
(`src/proxy/proxyServer.ts`), shallowly embedded in Lean 4.

JavaScript errors are modelled as `JsError` values; thrown/returned outcomes
as `Except JsError α`; JS `||`-defaulting (falsy coalescing) is modelled
explicitly, since `0` and `""` are falsy in JavaScript.
-/

namespace LLMProvider

/-- A JavaScript error object as the repository's code inspects it:
`name`, `message`, optional HTTP `status`, optional network `code`, and an
optional nested original error (`originalError` in `openai.ts`). -/
inductive JsError where
  | mk (name message : String) (status : Option Nat) (code : Option String)
       (cause : Option JsError)

def JsError.name : JsError → String
  | .mk n _ _ _ _ => n

def JsError.message : JsError → String
  | .mk _ m _ _ _ => m

def JsError.status : JsError → Option Nat
  | .mk _ _ s _ _ => s

def JsError.code : JsError → Option String
  | .mk _ _ _ c _ => c

def JsError.cause : JsError → Option JsError
  | .mk _ _ _ _ c => c

/-- JavaScript `x || d` for an optional number: `0` (and absence) is falsy. -/
def jsOrNat : Option Nat → Nat → Nat
  | some n, d => if n = 0 then d else n
  | none, d => d

/-- JavaScript `x || d` for an optional rational: `0` (and absence) is falsy. -/
def jsOrQ : Option ℚ → ℚ → ℚ
  | some q, d => if q = 0 then d else q
  | none, d => d

/-- JavaScript `x || d` for an optional string: `""` (and absence) is falsy. -/
def jsOrStr : Option String → String → String
  | some s, d => if s = "" then d else s
  | none, d => d

/-- `error.code === 'ECONNRESET' || ... || error.code === 'ETIMEDOUT'`
(`openai.ts`, lines 147-152). -/
def networkCodeRetriable (code : Option String) : Bool :=
  code == some "ECONNRESET" || code == some "ENOTFOUND" ||
  code == some "ECONNREFUSED" || code == some "ETIMEDOUT"

/-- The `if (error?.status) { ... }` block of `isRetriableError`
(`openai.ts`, lines 132-144). `some true`/`some false` mean the block
returned; `none` means the block was skipped (status absent or falsy `0`)
or fell through without returning. -/
def statusVerdict : Option Nat → Option Bool
  | none => none
  | some s =>
    if s = 0 then none
    else if 500 ≤ s then some true
    else if s = 429 then some true
    else if s = 408 then some true
    else if 400 ≤ s ∧ s < 500 then some false
    else none

/-- `OpenAIProvider.isRetriableError` (`openai.ts`, lines 130-156): the
status block first; then the network-code check returning `true`; then the
fail-open `return true`. -/
def isRetriableError (e : JsError) : Bool :=
  (statusVerdict e.status).getD
    (if networkCodeRetriable e.code then true else true)

theorem isRetriableError_false_of_statusVerdict (e : JsError) :
    isRetriableError e = false ↔ statusVerdict e.status = some false := by
  rcases hv : statusVerdict e.status with _ | b
  · simp [isRetriableError, hv]
  · simp [isRetriableError, hv]

theorem statusVerdict_some_false_iff (st : Option Nat) :
    statusVerdict st = some false ↔
      ∃ s, st = some s ∧ 400 ≤ s ∧ s < 500 ∧ s ≠ 408 ∧ s ≠ 429 := by
  rcases st with _ | s
  · simp [statusVerdict]
  · simp only [statusVerdict, Option.some.injEq]
    constructor
    · intro h
      refine ⟨s, rfl, ?_⟩
      split_ifs at h with h0 h5 h9 h8 h4 <;>
        first | omega | exact absurd h (by simp)
    · rintro ⟨s', hs', h4, h5, h8, h9⟩
      subst hs'
      split_ifs with e0 e5 e9 <;> first | rfl | omega

/-- C1: `isRetriableError` returns `false` exactly when the error carries an
HTTP status in `[400, 500)` other than 408 and 429; on every other error —
status ≥ 500, status 429 or 408, a recognized network code, or no status and
no recognized code (the fail-open default) — it returns `true` (the status
rules take precedence over the network-code check, per the source order). -/
theorem isRetriableError_characterization (e : JsError) :
    isRetriableError e = false ↔
      ∃ s, e.status = some s ∧ 400 ≤ s ∧ s < 500 ∧ s ≠ 408 ∧ s ≠ 429 :=
  (isRetriableError_false_of_statusVerdict e).trans
    (statusVerdict_some_false_iff e.status)

/-! ## Retry engine (`src/utils/retry.ts`) -/

/-- The `RetryOptions` interface of `retry.ts` (lines 4-11).  The
`onFailedAttempt` callback is observationally irrelevant to the claims and
is omitted; `retryIf` selects between the hand-rolled custom loop and the
default `p-retry` path. -/
structure RetryOptions where
  retries : Option Nat := none
  minTimeout : Option ℚ := none
  maxTimeout : Option ℚ := none
  randomize : Option Bool := none
  retryIf : Option (JsError → Bool) := none

/-- Observable outcome of one `withRetry` run: the value returned or the
error finally thrown, the number of times the operation was invoked, and
the backoff delays (in ms) slept between attempts, in order. -/
structure RunResult (α : Type) where
  result : Except JsError α
  calls : Nat
  delays : List ℚ

/-- The backoff computation of the custom loop (`retry.ts`, lines 49-52):
`baseTimeout = min(minTimeout * 2^attempt, maxTimeout)`;
`jitter = randomize !== false ? Math.random() * 0.1 : 0`;
`timeout = baseTimeout * (1 + jitter)`.  `randVal` models the
`Math.random()` draw for this attempt, a value in `[0, 1)`. -/
def backoffDelay (minT maxT : ℚ) (jitterOn : Bool) (randVal : ℚ)
    (attempt : Nat) : ℚ :=
  let baseTimeout := min (minT * 2 ^ attempt) maxT
  let jitter := if jitterOn then randVal * (1 / 10) else 0
  baseTimeout * (1 + jitter)

/-- `options.randomize !== false` (`retry.ts`, line 51). -/
def jitterEnabledCustom (randomize : Option Bool) : Bool :=
  !(randomize == some false)

/-- The custom retry loop of `withRetry` (`retry.ts`, lines 24-57), for an
operation `fn` whose outcome on its `i`-th invocation (0-indexed) is
`fn i`.  The loop runs with `attempt` from `a` while `r` counts the
remaining iterations up to `maxRetries`; on the last iteration the error is
re-thrown before `retryIf` is consulted, matching the source order. -/
def customAux {α : Type} (fn : Nat → Except JsError α) (p : JsError → Bool)
    (minT maxT : ℚ) (jitterOn : Bool) (rand : Nat → ℚ) :
    Nat → Nat → RunResult α
  | a, 0 =>
    match fn a with
    | .ok v => ⟨.ok v, 1, []⟩
    | .error e => ⟨.error e, 1, []⟩
  | a, r + 1 =>
    match fn a with
    | .ok v => ⟨.ok v, 1, []⟩
    | .error e =>
      if p e then
        let rr := customAux fn p minT maxT jitterOn rand (a + 1) r
        ⟨rr.result, rr.calls + 1,
          backoffDelay minT maxT jitterOn (rand a) a :: rr.delays⟩
      else ⟨.error e, 1, []⟩

/-- Modelled from the spec: the external `p-retry` library used by
`withRetry`'s default path (`retry.ts`, lines 62-71) is not part of this
repository; §4.1 of the spec gives its contract — the operation runs up to
`retries + 1` times, every error is retriable under the default predicate,
backoff is slept between attempts (`dly` records the duration for each
failed attempt index), and on exhausting the budget the last observed error
is re-raised unchanged. -/
def pRetryAux {α : Type} (fn : Nat → Except JsError α) (dly : Nat → ℚ) :
    Nat → Nat → RunResult α
  | a, 0 =>
    match fn a with
    | .ok v => ⟨.ok v, 1, []⟩
    | .error e => ⟨.error e, 1, []⟩
  | a, r + 1 =>
    match fn a with
    | .ok v => ⟨.ok v, 1, []⟩
    | .error _ =>
      let rr := pRetryAux fn dly (a + 1) r
      ⟨rr.result, rr.calls + 1, dly a :: rr.delays⟩

/-- `withRetry` (`retry.ts`, lines 13-72).  With `retryIf` present the
custom loop runs, with JS `||`-defaults `retries || 3`,
`minTimeout || 1000`, `maxTimeout || 10000` (so `0` is replaced by the
default).  Without `retryIf` the call delegates to `p-retry` with the
merged options `{retries: 3, minTimeout: 1000, maxTimeout: 10000,`
`randomize: true, ...options}` (spread: an absent key keeps the default). -/
def withRetry {α : Type} (opts : RetryOptions) (rand : Nat → ℚ)
    (fn : Nat → Except JsError α) : RunResult α :=
  match opts.retryIf with
  | some p =>
    customAux fn p (jsOrQ opts.minTimeout 1000) (jsOrQ opts.maxTimeout 10000)
      (jitterEnabledCustom opts.randomize) rand 0 (jsOrNat opts.retries 3)
  | none =>
    pRetryAux fn
      (fun a =>
        backoffDelay (opts.minTimeout.getD 1000) (opts.maxTimeout.getD 10000)
          (opts.randomize.getD true) (rand a) a)
      0 (opts.retries.getD 3)

theorem pRetryAux_always_fail {α : Type} (fn : Nat → Except JsError α)
    (errs : Nat → JsError) (dly : Nat → ℚ)
    (hfail : ∀ i, fn i = .error (errs i)) :
    ∀ r a, (pRetryAux fn dly a r).calls = r + 1 ∧
      (pRetryAux fn dly a r).result = .error (errs (a + r)) := by
  intro r
  induction r with
  | zero => intro a; simp [pRetryAux, hfail a]
  | succ r ih =>
    intro a
    have h := ih (a + 1)
    have harr : a + 1 + r = a + (r + 1) := by omega
    simp only [pRetryAux, hfail a]
    exact ⟨by simp [h.1], by rw [harr] at h; simp [h.2]⟩

/-- C2: with no custom retry predicate and `maxAttempts = n`, a permanently
failing operation is invoked exactly `n + 1` times by `withRetry`, and the
error of the last attempt is re-raised unchanged (no wrapping). -/
theorem withRetry_default_exhausts {α : Type} (opts : RetryOptions)
    (rand : Nat → ℚ) (fn : Nat → Except JsError α) (errs : Nat → JsError)
    (n : Nat) (hpred : opts.retryIf = none) (hn : opts.retries = some n)
    (hfail : ∀ i, fn i = .error (errs i)) :
    (withRetry opts rand fn).calls = n + 1 ∧
      (withRetry opts rand fn).result = .error (errs n) := by
  have h := pRetryAux_always_fail fn errs
    (fun a =>
      backoffDelay (opts.minTimeout.getD 1000) (opts.maxTimeout.getD 10000)
        (opts.randomize.getD true) (rand a) a) hfail n 0
  simp only [withRetry, hpred, hn, Option.getD_some]
  simpa using h

/-- Witness for C2 at `n = 2`: the operation is invoked 3 times and the
third attempt's error comes back unchanged. -/
theorem withRetry_default_exhausts_witness :
    (withRetry { retries := some 2 } (fun _ => 0)
      (fun _ => (.error (.mk "Error" "boom" none none none) :
        Except JsError Unit))).calls = 2 + 1 ∧
    (withRetry { retries := some 2 } (fun _ => 0)
      (fun _ => (.error (.mk "Error" "boom" none none none) :
        Except JsError Unit))).result =
      .error (.mk "Error" "boom" none none none) :=
  withRetry_default_exhausts { retries := some 2 } (fun _ => 0)
    (fun _ => .error (.mk "Error" "boom" none none none))
    (fun _ => .mk "Error" "boom" none none none) 2 rfl rfl (fun _ => rfl)

/-- An operation that fails on every invocation with the same plain error. -/
def failingOp : Nat → Except JsError Unit :=
  fun _ => .error (.mk "Error" "always fails" none none none)

/-- C3 (code bug): the custom path of `withRetry` computes
`maxRetries = options.retries || 3`, so `retries = 0` is falsy and is
silently replaced by 3 — a permanently failing retriable operation is
invoked 4 times with 3 backoff delays, not once as §4.1 of the spec
requires.  The default (`p-retry`) path honours `retries = 0`: one
invocation, no delay. -/
theorem withRetry_zero_retries_eval :
    (withRetry { retries := some 0, retryIf := some (fun _ => true) }
      (fun _ => 0) failingOp).calls = 4 ∧
    (withRetry { retries := some 0, retryIf := some (fun _ => true) }
      (fun _ => 0) failingOp).delays.length = 3 ∧
    (withRetry { retries := some 0 } (fun _ => 0) failingOp).calls = 1 ∧
    (withRetry { retries := some 0 } (fun _ => 0) failingOp).delays = [] :=
  ⟨rfl, rfl, rfl, rfl⟩

theorem customAux_delays_get {α : Type} (fn : Nat → Except JsError α)
    (p : JsError → Bool) (minT maxT : ℚ) (jitterOn : Bool) (rand : Nat → ℚ)
    (errs : Nat → JsError) (hfail : ∀ i, fn i = .error (errs i))
    (hp : ∀ i, p (errs i) = true) :
    ∀ r a k, k < r →
      ((customAux fn p minT maxT jitterOn rand a r).delays).get? k =
        some (backoffDelay minT maxT jitterOn (rand (a + k)) (a + k)) := by
  intro r
  induction r with
  | zero => intro a k hk; omega
  | succ r ih =>
    intro a k hk
    simp only [customAux, hfail a, hp a, if_true]
    cases k with
    | zero => simp
    | succ k =>
      have h := ih (a + 1) k (by omega)
      have harr : a + 1 + k = a + (k + 1) := by omega
      rw [harr] at h
      simpa using h

theorem backoffDelay_no_jitter (minT maxT rv : ℚ) (k : Nat) :
    backoffDelay minT maxT false rv k = min (minT * 2 ^ k) maxT := by
  simp [backoffDelay]

theorem backoffDelay_jitter_bounds (minT maxT rv : ℚ) (k : Nat)
    (hminpos : 0 < minT) (hmaxpos : 0 < maxT) (h0 : 0 ≤ rv) (h1 : rv < 1) :
    min (minT * 2 ^ k) maxT ≤ backoffDelay minT maxT true rv k ∧
      backoffDelay minT maxT true rv k <
        min (minT * 2 ^ k) maxT * (11 / 10) := by
  have hb : 0 < min (minT * 2 ^ k) maxT := lt_min (by positivity) hmaxpos
  simp only [backoffDelay, if_true]
  constructor
  · nlinarith [hb, h0]
  · nlinarith [hb, h1]

theorem jsOrQ_pos (q d : ℚ) (h : 0 < q) : jsOrQ (some q) d = q := by
  simp [jsOrQ, h.ne']

/-- C4: in the custom (`retryIf`) path of `withRetry`, for any
`minTimeout > 0` and `maxTimeout > 0`, the backoff delay slept before retry
`k` (0-indexed) equals `min(minTimeout * 2^k, maxTimeout)` exactly when
jitter is disabled (`randomize === false`), and lies in
`[base, base * 1.1)` when jitter is enabled, `base` being that minimum. -/
theorem withRetry_custom_backoff {α : Type} (opts : RetryOptions)
    (p : JsError → Bool) (rand : Nat → ℚ) (fn : Nat → Except JsError α)
    (errs : Nat → JsError) (minT maxT : ℚ) (k : Nat)
    (hpred : opts.retryIf = some p)
    (hminT : opts.minTimeout = some minT)
    (hmaxT : opts.maxTimeout = some maxT)
    (hminpos : 0 < minT) (hmaxpos : 0 < maxT)
    (hrand : ∀ i, 0 ≤ rand i ∧ rand i < 1)
    (hfail : ∀ i, fn i = .error (errs i)) (hp : ∀ i, p (errs i) = true)
    (hk : k < jsOrNat opts.retries 3) :
    ((withRetry opts rand fn).delays.get? k =
        some (backoffDelay minT maxT (jitterEnabledCustom opts.randomize)
          (rand k) k)) ∧
      (jitterEnabledCustom opts.randomize = false →
        backoffDelay minT maxT false (rand k) k = min (minT * 2 ^ k) maxT) ∧
      (jitterEnabledCustom opts.randomize = true →
        min (minT * 2 ^ k) maxT ≤ backoffDelay minT maxT true (rand k) k ∧
          backoffDelay minT maxT true (rand k) k <
            min (minT * 2 ^ k) maxT * (11 / 10)) := by
  refine ⟨?_, fun _ => backoffDelay_no_jitter minT maxT (rand k) k,
    fun _ => backoffDelay_jitter_bounds minT maxT (rand k) k hminpos hmaxpos
      (hrand k).1 (hrand k).2⟩
  have h := customAux_delays_get fn p minT maxT
    (jitterEnabledCustom opts.randomize) rand errs hfail hp
    (jsOrNat opts.retries 3) 0 k hk
  simp only [withRetry, hpred, hminT, hmaxT, jsOrQ_pos minT 1000 hminpos,
    jsOrQ_pos maxT 10000 hmaxpos]
  simpa using h

/-- Concrete options for the C4 witness run: `retries = 2`,
`minTimeout = 5`, `maxTimeout = 100`, jitter disabled, retry everything. -/
def backoffWitnessOpts : RetryOptions where
  retries := some 2
  minTimeout := some 5
  maxTimeout := some 100
  randomize := some false
  retryIf := some (fun _ => true)

/-- Witness for C4 at `minTimeout = 5`, `maxTimeout = 100`, jitter disabled,
`k = 1`: the second backoff delay is exactly `min(5 * 2, 100) = 10`. -/
theorem withRetry_custom_backoff_witness :
    ((withRetry backoffWitnessOpts (fun _ => 0)
        (fun _ => (.error (.mk "Error" "boom" none none none) :
          Except JsError Unit))).delays.get? 1 =
      some (backoffDelay 5 100 (jitterEnabledCustom (some false)) 0 1)) ∧
    (jitterEnabledCustom (some false) = false →
      backoffDelay 5 100 false 0 1 = min (5 * 2 ^ 1) 100) ∧
    (jitterEnabledCustom (some false) = true →
      min (5 * 2 ^ 1) 100 ≤ backoffDelay 5 100 true 0 1 ∧
        backoffDelay 5 100 true 0 1 < min (5 * 2 ^ 1) 100 * (11 / 10)) :=
  withRetry_custom_backoff backoffWitnessOpts
    (fun _ => true) (fun _ => 0)
    (fun _ => .error (.mk "Error" "boom" none none none))
    (fun _ => .mk "Error" "boom" none none none) 5 100 1 rfl rfl rfl
    (by norm_num) (by norm_num) (fun _ => ⟨le_refl 0, by norm_num⟩)
    (fun _ => rfl) (fun _ => rfl) (by decide)

/-! ## Provider adapter error path (`src/providers/openai.ts`) -/

/-- The `catch` block of `OpenAIProvider.doQuery` (`openai.ts`,
lines 94-105): a retriable error is re-thrown unchanged; a non-retriable
one is re-thrown as a fresh error with `name = 'NonRetriableError'`, the
original message, and the original error attached (`originalError`). -/
def classifyDoQueryError (e : JsError) : JsError :=
  if isRetriableError e then e
  else .mk "NonRetriableError" e.message none none (some e)

/-- C5: on a doQuery failure, a non-retriable error is re-raised wrapped in
an error named `NonRetriableError` carrying the original error as its
nested cause (and the original message); a retriable error is re-raised
unchanged. -/
theorem classifyDoQueryError_spec (e : JsError) :
    (isRetriableError e = false →
      (classifyDoQueryError e).name = "NonRetriableError" ∧
        (classifyDoQueryError e).cause = some e ∧
        (classifyDoQueryError e).message = e.message) ∧
      (isRetriableError e = true → classifyDoQueryError e = e) := by
  constructor
  · intro h
    simp [classifyDoQueryError, h, JsError.name, JsError.cause,
      JsError.message]
  · intro h
    simp [classifyDoQueryError, h]

/-- Witness for C5: a 404 error is wrapped into a `NonRetriableError` whose
cause is the original error, and a 503 error passes through unchanged. -/
theorem classifyDoQueryError_spec_witness :
    (isRetriableError (.mk "Error" "nf" (some 404) none none) = false ∧
      (classifyDoQueryError (.mk "Error" "nf" (some 404) none none)).name =
        "NonRetriableError" ∧
      (classifyDoQueryError (.mk "Error" "nf" (some 404) none none)).cause =
        some (.mk "Error" "nf" (some 404) none none) ∧
      (classifyDoQueryError
        (.mk "Error" "nf" (some 404) none none)).message = "nf") ∧
    (isRetriableError (.mk "Error" "sd" (some 503) none none) = true ∧
      classifyDoQueryError (.mk "Error" "sd" (some 503) none none) =
        .mk "Error" "sd" (some 503) none none) :=
  ⟨⟨rfl,
    (classifyDoQueryError_spec (.mk "Error" "nf" (some 404) none none)).1
      rfl⟩,
   rfl,
   (classifyDoQueryError_spec (.mk "Error" "sd" (some 503) none none)).2
     rfl⟩

/-! ## Proxy relay (`src/proxy/proxyServer.ts`) -/

/-- JS `String.prototype.startsWith`, on character lists: does the first
list begin with the second? -/
def charsLead : List Char → List Char → Bool
  | _, [] => true
  | [], _ :: _ => false
  | c :: cs, d :: ds => c == d && charsLead cs ds

/-- JS `s.startsWith(p)`. -/
def jsStartsWith (s p : String) : Bool :=
  charsLead s.toList p.toList

/-- JS `String.prototype.includes`, on character lists: does the second
list occur contiguously inside the first? -/
def charsHave : List Char → List Char → Bool
  | [], needle => needle.isEmpty
  | hay@(_ :: tl), needle => charsLead hay needle || charsHave tl needle

/-- JS `s.includes(sub)`. -/
def jsIncludes (s sub : String) : Bool :=
  charsHave s.toList sub.toList

/-- JS truthiness of an optional string: absent and `""` are falsy. -/
def jsTruthyStr : Option String → Bool
  | none => false
  | some s => s != ""

/-- `Headers.get(name)` on an upstream fetch response; header names are
modelled already lower-cased (fetch normalizes them). -/
def headerGet (hs : List (String × String)) (k : String) : Option String :=
  (hs.find? (fun kv => kv.1 == k)).map (fun kv => kv.2)

/-- An upstream fetch response as `handleOpenAIProxy` consumes it: status,
headers, and the body as the sequence of byte chunks its reader yields
(`none` models `response.body` being unavailable, so no reader exists). -/
structure UpstreamResponse where
  status : Nat
  headers : List (String × String)
  body : Option (List (List Nat))

/-- What the relay observably does with one inbound request: the response
status, whether the upstream fetch was issued, whether the streaming branch
ran, and the byte chunks written to the client in order. -/
structure RelayOutcome where
  status : Nat
  upstreamCalled : Bool
  streamed : Bool
  writes : List (List Nat)
deriving DecidableEq

/-- The relay's reader loop (`proxyServer.ts`, lines 115-119): repeatedly
`read()`; on `done` stop; otherwise `res.write(value)`.  `written`
accumulates the chunks written so far. -/
def pumpReader : List (List Nat) → List (List Nat) → List (List Nat)
  | [], written => written
  | c :: rest, written => pumpReader rest (written ++ [c])

/-- The streaming branch's total writes (`proxyServer.ts`, lines 112-124):
with no reader available nothing is written and the response is ended;
otherwise the reader is pumped to exhaustion. -/
def relayStreamWrites : Option (List (List Nat)) → List (List Nat)
  | none => []
  | some chunks => pumpReader chunks []

/-- `ProxyServer.handleOpenAIProxy` (`proxyServer.ts`, lines 67-143) for a
request under `/proxy/openai`: reject 401 unless the Authorization header
is truthy and starts with `Bearer `; otherwise issue the upstream fetch,
mirror its status, and either stream its body chunks byte-for-byte (when
the content type includes `text/event-stream`) or re-emit the buffered
JSON body. -/
def handleOpenAIProxy (auth : Option String) (upstream : UpstreamResponse) :
    RelayOutcome :=
  if !jsTruthyStr auth || !jsStartsWith (auth.getD "") "Bearer " then
    ⟨401, false, false, []⟩
  else
    match headerGet upstream.headers "content-type" with
    | some ct =>
      if jsIncludes ct "text/event-stream" then
        ⟨upstream.status, true, true, relayStreamWrites upstream.body⟩
      else ⟨upstream.status, true, false, []⟩
    | none => ⟨upstream.status, true, false, []⟩

theorem pumpReader_eq (chunks : List (List Nat)) :
    ∀ written, pumpReader chunks written = written ++ chunks := by
  induction chunks with
  | nil => intro w; simp [pumpReader]
  | cons c rest ih => intro w; simp [pumpReader, ih]

/-- C7: when the upstream content type indicates an event-stream and the
request is authorized, the relay writes to the client exactly the byte
chunks read from the upstream body, in order, nothing added, removed or
transformed; with no body reader available it ends the response with
nothing written; and it mirrors the upstream status. -/
theorem relay_stream_byte_faithful (auth : String) (u : UpstreamResponse)
    (hne : auth ≠ "") (hbearer : jsStartsWith auth "Bearer " = true)
    (hct : ∃ ct, headerGet u.headers "content-type" = some ct ∧
      jsIncludes ct "text/event-stream" = true) :
    (∀ chunks, u.body = some chunks →
        (handleOpenAIProxy (some auth) u).writes = chunks) ∧
      (u.body = none → (handleOpenAIProxy (some auth) u).writes = []) ∧
      (handleOpenAIProxy (some auth) u).status = u.status := by
  obtain ⟨ct, hg, hi⟩ := hct
  have hT : jsTruthyStr (some auth) = true := by
    simp [jsTruthyStr, bne_iff_ne, hne]
  simp only [handleOpenAIProxy, hT, Option.getD_some, hbearer, hg, hi,
    Bool.not_true, Bool.or_self, Bool.false_or, if_false, if_true,
    Bool.or_false, ite_false, ite_true]
  refine ⟨fun chunks hc => ?_, fun hc => ?_, rfl⟩
  · simp [hc, relayStreamWrites, pumpReader_eq]
  · simp [hc, relayStreamWrites]

/-- Witness for C7: three chunks relayed verbatim through an authorized
event-stream response. -/
theorem relay_stream_byte_faithful_witness :
    (∀ chunks,
        (UpstreamResponse.mk 200 [("content-type", "text/event-stream")]
            (some [[104, 105], [10], [33]])).body = some chunks →
        (handleOpenAIProxy (some "Bearer sk-test")
          (UpstreamResponse.mk 200 [("content-type", "text/event-stream")]
            (some [[104, 105], [10], [33]]))).writes = chunks) ∧
      ((UpstreamResponse.mk 200 [("content-type", "text/event-stream")]
          (some [[104, 105], [10], [33]])).body = none →
        (handleOpenAIProxy (some "Bearer sk-test")
          (UpstreamResponse.mk 200 [("content-type", "text/event-stream")]
            (some [[104, 105], [10], [33]]))).writes = []) ∧
      (handleOpenAIProxy (some "Bearer sk-test")
          (UpstreamResponse.mk 200 [("content-type", "text/event-stream")]
            (some [[104, 105], [10], [33]]))).status =
        (UpstreamResponse.mk 200 [("content-type", "text/event-stream")]
          (some [[104, 105], [10], [33]])).status :=
  relay_stream_byte_faithful "Bearer sk-test"
    (UpstreamResponse.mk 200 [("content-type", "text/event-stream")]
      (some [[104, 105], [10], [33]]))
    (by decide) (by decide)
    ⟨"text/event-stream", by decide, by decide⟩

/-- C8: a request under the proxy forwarding route whose Authorization
header is missing, empty, or does not start with the `Bearer ` scheme is
answered 401 and the upstream call is never issued. -/
theorem relay_401_no_upstream (auth : Option String) (u : UpstreamResponse)
    (hbad : ∀ a, auth = some a → jsStartsWith a "Bearer " = false) :
    (handleOpenAIProxy auth u).status = 401 ∧
      (handleOpenAIProxy auth u).upstreamCalled = false := by
  rcases auth with _ | a
  · simp [handleOpenAIProxy, jsTruthyStr]
  · have hb := hbad a rfl
    simp [handleOpenAIProxy, hb]

/-- Witness for C8: a `Basic` credential is rejected with 401 and no
upstream call. -/
theorem relay_401_no_upstream_witness :
    (handleOpenAIProxy (some "Basic dXNlcg==")
        (UpstreamResponse.mk 200 [] none)).status = 401 ∧
      (handleOpenAIProxy (some "Basic dXNlcg==")
        (UpstreamResponse.mk 200 [] none)).upstreamCalled = false :=
  relay_401_no_upstream (some "Basic dXNlcg==")
    (UpstreamResponse.mk 200 [] none)
    (by intro a ha; obtain rfl := (Option.some.inj ha).symm; decide)

/-- The inbound header object as `sanitizeHeaders` inspects it: the
`authorization` and `x-api-key` entries (Node lower-cases header names) and
all remaining headers. -/
structure ReqHeaders where
  authorization : Option String
  xApiKey : Option String
  others : List (String × String)
deriving DecidableEq

/-- `ProxyServer.sanitizeHeaders` (`proxyServer.ts`, lines 145-155): copy
the headers; if `authorization` is truthy replace it with
`Bearer [REDACTED]`; if `x-api-key` is truthy replace it with
`[REDACTED]`. -/
def sanitizeHeaders (h : ReqHeaders) : ReqHeaders :=
  let s1 := if jsTruthyStr h.authorization then
    { h with authorization := some "Bearer [REDACTED]" } else h
  if jsTruthyStr s1.xApiKey then
    { s1 with xApiKey := some "[REDACTED]" } else s1

/-- C9 counterexample: two requests differing only in the Authorization
value — one carries the empty string, the other a bearer token — produce
different logged header objects, and the first one's logged object still
contains its raw Authorization value (the empty string is JS-falsy, so the
redaction branch is skipped). -/
theorem sanitizeHeaders_empty_not_redacted :
    sanitizeHeaders ⟨some "", none, []⟩ ≠
        sanitizeHeaders ⟨some "Bearer secret123", none, []⟩ ∧
      (sanitizeHeaders ⟨some "", none, []⟩).authorization = some "" := by
  decide

/-- C9 (amended): for inbound requests whose Authorization and X-API-Key
values are present and non-empty (JS-truthy), the logged header object
carries only the fixed placeholders in those slots: two such requests
differing only in the secret values produce identical logged header
objects. -/
theorem sanitizeHeaders_redacts (o : List (String × String))
    (a₁ a₂ k₁ k₂ : String) (ha₁ : a₁ ≠ "") (ha₂ : a₂ ≠ "")
    (hk₁ : k₁ ≠ "") (hk₂ : k₂ ≠ "") :
    sanitizeHeaders ⟨some a₁, some k₁, o⟩ =
        sanitizeHeaders ⟨some a₂, some k₂, o⟩ ∧
      (sanitizeHeaders ⟨some a₁, some k₁, o⟩).authorization =
        some "Bearer [REDACTED]" ∧
      (sanitizeHeaders ⟨some a₁, some k₁, o⟩).xApiKey =
        some "[REDACTED]" := by
  simp [sanitizeHeaders, jsTruthyStr, bne_iff_ne, ha₁, ha₂, hk₁, hk₂]

/-- Witness for C9 (amended): two concrete bearer tokens and API keys are
logged identically, as the fixed placeholders. -/
theorem sanitizeHeaders_redacts_witness :
    sanitizeHeaders ⟨some "Bearer secretA", some "keyA",
        [("host", "localhost")]⟩ =
      sanitizeHeaders ⟨some "Bearer secretB", some "keyB",
        [("host", "localhost")]⟩ ∧
    (sanitizeHeaders ⟨some "Bearer secretA", some "keyA",
        [("host", "localhost")]⟩).authorization =
      some "Bearer [REDACTED]" ∧
    (sanitizeHeaders ⟨some "Bearer secretA", some "keyA",
        [("host", "localhost")]⟩).xApiKey = some "[REDACTED]" :=
  sanitizeHeaders_redacts [("host", "localhost")]
    "Bearer secretA" "Bearer secretB" "keyA" "keyB"
    (by decide) (by decide) (by decide) (by decide)

/-! ## Transport modes of the adapter (claim C6) -/

/-- `response.ok` of fetch: status in `[200, 300)`. -/
def responseOk (status : Nat) : Bool :=
  200 ≤ status && status < 300

/-- `OpenAIProvider.callViaProxy` (`openai.ts`, lines 108-128): on a
non-ok relay response it throws a fresh
`Error('Proxy request failed: <status> <statusText> - <body>')` — a plain
error carrying no HTTP `status` field and no network `code`.  The parsed
JSON success value is abstracted to `Unit`. -/
def callViaProxy (relayStatus : Nat) (statusText bodyText : String) :
    Except JsError Unit :=
  if responseOk relayStatus then .ok ()
  else .error (.mk "Error"
    ("Proxy request failed: " ++ toString relayStatus ++ " " ++ statusText
      ++ " - " ++ bodyText) none none none)

/-- Modelled from the spec: in direct transport mode the upstream SDK (an
external dependency, not in the source slice) raises an error carrying the
HTTP status of the failed call — §4.2's classification receives "an error
with an optional HTTP status code".  For an upstream that answers 404: -/
def directUpstream404Error : JsError :=
  .mk "Error" "404 Not Found" (some 404) none none

/-- Per-attempt outcome of `doQuery` in direct mode against an upstream
that always answers 404: the catch block (`openai.ts`, lines 94-105)
classifies the status-carrying error as non-retriable and wraps it. -/
def doQueryDirect404 : Except JsError Unit :=
  .error (classifyDoQueryError directUpstream404Error)

/-- Per-attempt outcome of `doQuery` in proxied mode against the same
upstream: the authorized relay mirrors the 404 on a JSON response
(`handleOpenAIProxy`), `callViaProxy` sees `!response.ok` and throws its
status-less `Error`, and the catch block's `isRetriableError` fail-opens on
it, re-raising it unchanged. -/
def doQueryProxied404 : Except JsError Unit :=
  match callViaProxy
      (handleOpenAIProxy (some "Bearer sk-key")
        (UpstreamResponse.mk 404 [("content-type", "application/json")]
          none)).status
      "Not Found" "error body" with
  | .ok v => .ok v
  | .error e => .error (classifyDoQueryError e)

/-- Modelled from the spec: `BaseProvider.query` (base.ts is outside the
source slice) wraps `doQuery` in the retry engine with a predicate that
refuses to retry a `NonRetriableError` (§4.2, §7), the remaining retry
options left at their defaults. -/
def queryRetryOpts : RetryOptions :=
  { retryIf := some (fun e => !(e.name == "NonRetriableError")) }

/-- One `query` run whose every `doQuery` attempt has the given outcome. -/
def queryRun404 (attempt : Except JsError Unit) : RunResult Unit :=
  withRetry queryRetryOpts (fun _ => 0) (fun _ => attempt)

/-- The `name` of the error a run finally threw, if it threw. -/
def exceptErrName {α : Type} : Except JsError α → Option String
  | .ok _ => none
  | .error e => some e.name

/-- C6 (code bug): direct and proxied transport are not equivalent at the
adapter's contract.  Against an upstream that answers 404, direct mode
raises a `NonRetriableError` after exactly one attempt with zero backoff —
but proxied mode raises a plain status-less `Error` (thrown by
`callViaProxy`), which is classified retriable, so `query` makes 4 attempts
with 3 backoff delays and never produces a `NonRetriableError`. -/
theorem query_404_transport_divergence :
    (queryRun404 doQueryDirect404).calls = 1 ∧
      (queryRun404 doQueryDirect404).delays = [] ∧
      exceptErrName (queryRun404 doQueryDirect404).result =
        some "NonRetriableError" ∧
      (queryRun404 doQueryProxied404).calls = 4 ∧
      (queryRun404 doQueryProxied404).delays.length = 3 ∧
      exceptErrName (queryRun404 doQueryProxied404).result = some "Error" :=
  ⟨rfl, rfl, rfl, rfl, rfl, rfl⟩

/-! ## Provider constructor (claim C10) -/

/-- The `OpenAIProviderConfig` interface (`openai.ts`, lines 6-13). -/
structure OpenAIProviderConfig where
  apiKey : String
  defaultModel : Option String := none
  defaultTemperature : Option ℚ := none
  defaultMaxTokens : Option Nat := none
  useProxy : Option Bool := none
  proxyUrl : Option String := none

/-- The fields an `OpenAIProvider` instance ends up with (those set by the
`BaseProvider` super call plus the proxy fields). -/
structure ProviderFields where
  name : String
  apiKey : String
  defaultModel : String
  defaultTemperature : ℚ
  defaultMaxTokens : Nat
  useProxy : Bool
  proxyUrl : String

/-- The config-object branch of `OpenAIProvider`'s constructor
(`openai.ts`, lines 26-30), with the constructor's default parameters
`defaultModel = "gpt-5"`, `defaultTemperature = 0.7`,
`defaultMaxTokens = 4096`: each provided field is merged with JS `||`, so a
falsy value (`0`, `""`) is silently replaced by the class default. -/
def mkOpenAIProvider (c : OpenAIProviderConfig) : ProviderFields where
  name := "OpenAI"
  apiKey := c.apiKey
  defaultModel := jsOrStr c.defaultModel "gpt-5"
  defaultTemperature := jsOrQ c.defaultTemperature (7 / 10)
  defaultMaxTokens := jsOrNat c.defaultMaxTokens 4096
  useProxy := c.useProxy.getD false
  proxyUrl := jsOrStr c.proxyUrl "http://localhost:3000"

/-- C10: constructing `OpenAIProvider` from a config object with
`defaultTemperature = 0`, `defaultMaxTokens = 0` or `defaultModel = ""`
silently restores the class defaults (0.7, 4096, `gpt-5`), and no config
object at all can produce a default temperature of exactly 0. -/
theorem mkOpenAIProvider_falsy_defaults (c : OpenAIProviderConfig) :
    (c.defaultTemperature = some 0 →
      (mkOpenAIProvider c).defaultTemperature = 7 / 10) ∧
      (c.defaultMaxTokens = some 0 →
        (mkOpenAIProvider c).defaultMaxTokens = 4096) ∧
      (c.defaultModel = some "" →
        (mkOpenAIProvider c).defaultModel = "gpt-5") ∧
      (mkOpenAIProvider c).defaultTemperature ≠ 0 := by
  refine ⟨fun h => by simp [mkOpenAIProvider, h, jsOrQ],
    fun h => by simp [mkOpenAIProvider, h, jsOrNat],
    fun h => by simp [mkOpenAIProvider, h, jsOrStr], ?_⟩
  simp only [mkOpenAIProvider]
  rcases hq : c.defaultTemperature with _ | q
  · norm_num [jsOrQ]
  · simp only [jsOrQ]
    split_ifs with h
    · norm_num
    · exact h

/-- Witness for C10 at the all-falsy config
`{apiKey: "k", defaultModel: "", defaultTemperature: 0,`
`defaultMaxTokens: 0}`. -/
theorem mkOpenAIProvider_falsy_defaults_witness :
    ((OpenAIProviderConfig.mk "k" (some "") (some 0) (some 0) none
          none).defaultTemperature = some 0 →
      (mkOpenAIProvider (OpenAIProviderConfig.mk "k" (some "") (some 0)
          (some 0) none none)).defaultTemperature = 7 / 10) ∧
      ((OpenAIProviderConfig.mk "k" (some "") (some 0) (some 0) none
            none).defaultMaxTokens = some 0 →
        (mkOpenAIProvider (OpenAIProviderConfig.mk "k" (some "") (some 0)
            (some 0) none none)).defaultMaxTokens = 4096) ∧
      ((OpenAIProviderConfig.mk "k" (some "") (some 0) (some 0) none
            none).defaultModel = some "" →
        (mkOpenAIProvider (OpenAIProviderConfig.mk "k" (some "") (some 0)
            (some 0) none none)).defaultModel = "gpt-5") ∧
      (mkOpenAIProvider (OpenAIProviderConfig.mk "k" (some "") (some 0)
          (some 0) none none)).defaultTemperature ≠ 0 :=
  mkOpenAIProvider_falsy_defaults
    (OpenAIProviderConfig.mk "k" (some "") (some 0) (some 0) none none)

end LLMProvider
